import Mathlib

/-!
Verification development for `generate_modules.py` (PARVYOM-metanode).

The script is a batch generator: a static module table, three string
extractors over a README's text, a tiny markdown-to-HTML converter, an HTML
template renderer, and a driver loop over the table.

Python string primitives (`in`, `find`, `replace`, `strip`, `split`,
`upper`, slicing) are embedded below as executable functions on `List Char`
(Python string indices are character indices, matching `List Char`
positions).  `str.upper` is modelled on ASCII via `Char.toUpper`; the
markers the program searches for are all ASCII.  File I/O is modelled by an
explicit filesystem record passed to the driver model.
-/

/-- Python `sub in s`: does `pat` occur as a contiguous substring? -/
def hasSubList (pat : List Char) : List Char → Bool
  | [] => pat.isPrefixOf ([] : List Char)
  | c :: t => pat.isPrefixOf (c :: t) || hasSubList pat t

/-- Python `s.find(pat)`: character index of the leftmost occurrence, `none`
when absent (Python returns `-1`). -/
def findSub (pat : List Char) : List Char → Option Nat
  | [] => if pat.isPrefixOf ([] : List Char) then some 0 else none
  | c :: t =>
    if pat.isPrefixOf (c :: t) then some 0
    else (findSub pat t).map (· + 1)

/-- Python `s.replace(pat, r)` on char lists, with `fuel` bounding the scan;
called with `fuel = l.length` it replaces every non-overlapping occurrence
left to right.  The program only replaces the nonempty pattern
`"## Overview"`; for an empty pattern this model leaves the text unchanged. -/
def replaceFuel (pat r : List Char) : Nat → List Char → List Char
  | _, [] => []
  | 0, l => l
  | fuel + 1, c :: t =>
    if pat ≠ [] ∧ pat.isPrefixOf (c :: t) then
      r ++ replaceFuel pat r fuel ((c :: t).drop pat.length)
    else
      c :: replaceFuel pat r fuel t

def replaceSub (pat r l : List Char) : List Char := replaceFuel pat r l.length l

/-- Python `s.split(sep)` for nonempty `sep`, with `fuel` bounding the scan;
called with `fuel = l.length` it matches Python: `"".split(sep) = [""]`,
separators split even at the ends (`"ab".split("b") = ["a", ""]`). -/
def splitFuel (sep : List Char) : Nat → List Char → List (List Char)
  | _, [] => [[]]
  | 0, l => [l]
  | fuel + 1, c :: t =>
    if sep ≠ [] ∧ sep.isPrefixOf (c :: t) then
      [] :: splitFuel sep fuel ((c :: t).drop sep.length)
    else
      match splitFuel sep fuel t with
      | [] => [[c]]
      | p :: rest => (c :: p) :: rest

def splitSub (sep l : List Char) : List (List Char) := splitFuel sep l.length l

/-- Python `sep.join(parts)` on char lists. -/
def joinSep (sep : List Char) : List (List Char) → List Char
  | [] => []
  | [x] => x
  | x :: y :: rest => x ++ sep ++ joinSep sep (y :: rest)

/-- Python `s.strip()`: remove leading and trailing whitespace. -/
def stripL (l : List Char) : List Char :=
  (((l.dropWhile Char.isWhitespace).reverse).dropWhile Char.isWhitespace).reverse

/- String-level wrappers, so the embedded program reads like the source. -/

def pyContains (s pat : String) : Bool := hasSubList pat.data s.data

def pyFind (s pat : String) : Option Nat := findSub pat.data s.data

/-- Python `s.find(pat, start)` (`none` for Python's `-1`). -/
def pyFindFrom (s pat : String) (start : Nat) : Option Nat :=
  (findSub pat.data (s.data.drop start)).map (· + start)

/-- Python slice `s[a:b]` (with `0 ≤ a ≤ b ≤ len` in every use here). -/
def pySlice (s : String) (a b : Nat) : String := ⟨(s.data.take b).drop a⟩

def pyReplace (s pat r : String) : String := ⟨replaceSub pat.data r.data s.data⟩

def pyStrip (s : String) : String := ⟨stripL s.data⟩

/-- Python `s.upper()` (ASCII model; the searched markers are ASCII). -/
def pyUpper (s : String) : String := ⟨s.data.map Char.toUpper⟩

def pySplit (s sep : String) : List String :=
  (splitSub sep.data s.data).map (fun l => (⟨l⟩ : String))

def pyJoin (sep : String) (parts : List String) : String :=
  ⟨joinSep sep.data (parts.map String.data)⟩

def startsW (s pre : String) : Bool := pre.data.isPrefixOf s.data

def pyDrop (s : String) (n : Nat) : String := ⟨s.data.drop n⟩

def strLen (s : String) : Nat := s.data.length

/-! ## `markdown_to_html` (source lines 277-292) -/

/-- One line under the two `re.sub(..., flags=re.MULTILINE)` passes of
`markdown_to_html`: `^### (.*)` is rewritten first, then `^## (.*)` on the
result (an `<h3>` line no longer starts with `##`, so per-line either/or
with `### ` priority is exact). -/
def headerLine (line : String) : String :=
  if startsW line "### " then "<h3>" ++ pyDrop line 4 ++ "</h3>"
  else if startsW line "## " then "<h2>" ++ pyDrop line 3 ++ "</h2>"
  else line

/-- Both header `re.sub` passes: `^` in MULTILINE mode anchors at the start
of each `\n`-separated line, and `(.*)` captures the rest of that line. -/
def convert_headers (text : String) : String :=
  pyJoin "\n" ((pySplit text "\n").map headerLine)

/-- The paragraph loop body: `if p.strip() and not p.startswith('<')` wrap
the *stripped* text in `<p>...</p>`, else keep `p` unchanged. -/
def wrapParagraph (p : String) : String :=
  if pyStrip p ≠ "" ∧ startsW p "<" = false then "<p>" ++ pyStrip p ++ "</p>"
  else p

def markdown_to_html (text : String) : String :=
  pyJoin "\n" ((pySplit (convert_headers text) "\n\n").map wrapParagraph)

/-! ## The three extractors (source lines 240-275) -/

/-- Lines 243-247 of `extract_overview`: `start = content.find("## Overview")`
(the call site guards `"## Overview" in content`, so `find` succeeds and the
`getD 0` default is never taken), `end = content.find("##", start + 1)` with
`-1` mapped to `len(content)`, then slice, delete the marker, strip. -/
def overviewSection (content : String) : String :=
  let start := (pyFind content "## Overview").getD 0
  let stop :=
    match pyFindFrom content "##" (start + 1) with
    | some e => e
    | none => strLen content
  pyStrip (pyReplace (pySlice content start stop) "## Overview" "")

def extract_overview (content : String) : String :=
  if pyContains content "## Overview" then
    markdown_to_html (overviewSection content)
  else
    "<p>Comprehensive system documentation available in the repository.</p>"

def extract_features (content : String) : String :=
  "<div class=\x27features-list\x27>" ++
    (if pyContains content "## Key Features" || pyContains content "### Features" then
      "<p>Advanced features and capabilities documented in detail.</p>"
    else
      "<p>Production-ready features with enterprise-grade capabilities.</p>") ++
  "</div>"

def extract_api_endpoints (content : String) : String :=
  "<div class=\x27api-endpoints\x27>" ++
    (if pyContains (pyUpper content) "API" || pyContains (pyUpper content) "ENDPOINT" then
      "<p>Complete API documentation with endpoints, parameters, and examples.</p>"
    else
      "<p>API documentation available in the comprehensive module documentation.</p>") ++
  "</div>"

/-! ## The module table (source lines 12-103) -/

structure ModuleInfo where
  title : String
  description : String
  icon : String
  category : String
deriving DecidableEq

/-- `MODULE_MAPPING`: the static dict, in insertion order (Python dicts
iterate in insertion order). -/
def MODULE_MAPPING : List (String × ModuleInfo) := [
  ("01-firstuse", ⟨"First Use Guide",
    "Complete getting started guide for PARVYOM Metanode deployment and initial setup",
    "fas fa-play-circle", "getting-started"⟩),
  ("02-toolkit", ⟨"Development Toolkit",
    "Comprehensive development tools and utilities for PARVYOM Metanode ecosystem",
    "fas fa-toolbox", "development"⟩),
  ("03-httpcg-client", ⟨"HttpCG Client",
    "Next-generation HTTP client with quantum-safe security and Web2-Web3 bridging",
    "fas fa-globe", "networking"⟩),
  ("04-httpcg-gateway", ⟨"HttpCG Gateway",
    "Enterprise gateway with protocol transformation and security enforcement",
    "fas fa-shield-alt", "networking"⟩),
  ("05-docklock-enc-orchestration", ⟨"DockLock ENC Orchestration",
    "Container orchestration with execution network clusters and security isolation",
    "fas fa-cubes", "infrastructure"⟩),
  ("10-bpi-core", ⟨"BPI Core System",
    "Foundational BPI infrastructure with consensus, validation, and transaction processing",
    "fas fa-microchip", "core"⟩),
  ("11-bpi-ledger", ⟨"BPI Ledger",
    "Distributed ledger technology with immutable records and cryptographic proofs",
    "fas fa-book", "core"⟩),
  ("25-merkle-trees", ⟨"Merkle Trees",
    "Multi-architecture Merkle tree system with ZIPLOCK-JSON rollups and ZK accumulators",
    "fas fa-tree", "cryptography"⟩),
  ("27-network-protocols", ⟨"Network Protocols",
    "XTMP protocol for high-performance BPI communication and HTTP Cage transformation",
    "fas fa-network-wired", "networking"⟩),
  ("31-security-auditing", ⟨"Security Auditing",
    "Unified audit system with immutable trails and cross-system security monitoring",
    "fas fa-search", "security"⟩),
  ("32-performance-optimization", ⟨"Performance Optimization",
    "Criterion-based benchmarking with real-world performance testing and optimization",
    "fas fa-tachometer-alt", "performance"⟩),
  ("33-operations-maintenance", ⟨"Operations & Maintenance",
    "CLI maintenance system with advanced database operations and multi-cloud infrastructure",
    "fas fa-tools", "operations"⟩),
  ("34-compliance-regulatory", ⟨"Compliance & Regulatory",
    "Multi-framework compliance with SOC 2, ISO 27001, GDPR, HIPAA, and PCI DSS support",
    "fas fa-gavel", "compliance"⟩),
  ("39-iot-edge-computing", ⟨"IoT & Edge Computing",
    "Ultra-lightweight IoT protocols with edge computing and device orchestration",
    "fas fa-microchip", "iot"⟩),
  ("40-blockchain-infrastructure", ⟨"Blockchain Infrastructure",
    "Enterprise-grade blockchain core with IBFT consensus and validator infrastructure",
    "fas fa-link", "blockchain"⟩)]

/-! ## `create_module_page` (source lines 105-238)

The f-string template, cut at its ten interpolation holes.  HTML comment
delimiters are written with `\x2d` escapes for the dashes; all bytes match
the source template. -/

def tpl1 : String := "<!DOCTYPE html>\n<html lang=\"en\">\n<head>\n    <meta charset=\"UTF-8\">\n    <meta name=\"viewport\" content=\"width=device-width, initial-scale=1.0\">\n    <title>"

def tpl2 : String := " - PARVYOM Metanode</title>\n    <meta name=\"description\" content=\""

def tpl3 : String := "\">\n    \n    <!\x2d\x2d Fonts \x2d\x2d>\n    <link href=\"https://fonts.googleapis.com/css2?family=Inter:wght@300;400;500;600;700&display=swap\" rel=\"stylesheet\">\n    <link href=\"https://cdnjs.cloudflare.com/ajax/libs/font-awesome/6.4.0/css/all.min.css\" rel=\"stylesheet\">\n    \n    <!\x2d\x2d Styles \x2d\x2d>\n    <link rel=\"stylesheet\" href=\"../../assets/css/main.css\">\n    <link rel=\"stylesheet\" href=\"../../assets/css/components.css\">\n    <link rel=\"stylesheet\" href=\"../../assets/css/responsive.css\">\n</head>\n<body>\n    <!\x2d\x2d Navigation Header \x2d\x2d>\n    <nav class=\"navbar\">\n        <div class=\"nav-container\">\n            <div class=\"nav-brand\">\n                <i class=\"fas fa-cube nav-icon\"></i>\n                <span class=\"nav-title\">PARVYOM Metanode</span>\n                <span class=\"nav-subtitle\">"

def tpl4 : String := "</span>\n            </div>\n            \n            <div class=\"nav-menu\">\n                <a href=\"../../\" class=\"nav-link\">Home</a>\n                <a href=\"../\" class=\"nav-link\">Modules</a>\n                <a href=\"#overview\" class=\"nav-link\">Overview</a>\n                <a href=\"#features\" class=\"nav-link\">Features</a>\n                <a href=\"#api\" class=\"nav-link\">API</a>\n                <a href=\"https://github.com/GlobalSushrut/PARVYOM-metanode\" class=\"nav-link github-link\" target=\"_blank\">\n                    <i class=\"fab fa-github\"></i> GitHub\n                </a>\n            </div>\n        </div>\n    </nav>\n\n    <!\x2d\x2d Hero Section \x2d\x2d>\n    <section class=\"hero module-hero\">\n        <div class=\"container\">\n            <div class=\"hero-content\">\n                <div class=\"module-icon "

def tpl5 : String := "-icon large\">\n                    <i class=\""

def tpl6 : String := "\"></i>\n                </div>\n                <h1>"

def tpl7 : String := "</h1>\n                <p>"

def tpl8 : String := "</p>\n                <div class=\"hero-badges\">\n                    <span class=\"badge production\">Production Ready</span>\n                    <span class=\"badge security\">Enterprise Grade</span>\n                    <span class=\"badge performance\">High Performance</span>\n                </div>\n            </div>\n        </div>\n    </section>\n\n    <!\x2d\x2d Overview Section \x2d\x2d>\n    <section id=\"overview\" class=\"content-section\">\n        <div class=\"container\">\n            <h2>System Overview</h2>\n            <div class=\"overview-content\">\n                "

def tpl9 : String := "\n            </div>\n        </div>\n    </section>\n\n    <!\x2d\x2d Features Section \x2d\x2d>\n    <section id=\"features\" class=\"features-section\">\n        <div class=\"container\">\n            <h2>Key Features</h2>\n            <div class=\"features-content\">\n                "

def tpl10 : String := "\n            </div>\n        </div>\n    </section>\n\n    <!\x2d\x2d API Section \x2d\x2d>\n    <section id=\"api\" class=\"api-section\">\n        <div class=\"container\">\n            <h2>API Reference</h2>\n            <div class=\"api-content\">\n                "

def tpl11 : String := "\n            </div>\n        </div>\n    </section>\n\n    <!\x2d\x2d Footer \x2d\x2d>\n    <footer class=\"footer\">\n        <div class=\"container\">\n            <div class=\"footer-content\">\n                <div class=\"footer-section\">\n                    <h3>PARVYOM Metanode</h3>\n                    <p>Revolutionary enterprise blockchain infrastructure with AI, IoT, and quantum-safe security.</p>\n                </div>\n                <div class=\"footer-section\">\n                    <h4>Documentation</h4>\n                    <ul>\n                        <li><a href=\"../../\">Overview</a></li>\n                        <li><a href=\"../../#architecture\">Architecture</a></li>\n                        <li><a href=\"../\">Modules</a></li>\n                        <li><a href=\"../../#deployment\">Deployment</a></li>\n                    </ul>\n                </div>\n            </div>\n            <div class=\"footer-bottom\">\n                <p>&copy; 2024 PARVYOM Metanode. Enterprise-grade blockchain infrastructure.</p>\n            </div>\n        </div>\n    </footer>\n\n    <!\x2d\x2d Scripts \x2d\x2d>\n    <script src=\"../../assets/js/main.js\"></script>\n</body>\n</html>"

/-- The template with its holes filled, exactly in source order:
title, description, title, category, icon, title, description,
overview, features, api_endpoints. -/
def renderPage (info : ModuleInfo) (overview features api_endpoints : String) : String :=
  tpl1 ++ info.title ++ tpl2 ++ info.description ++ tpl3 ++ info.title ++
  tpl4 ++ info.category ++ tpl5 ++ info.icon ++ tpl6 ++ info.title ++
  tpl7 ++ info.description ++ tpl8 ++ overview ++ tpl9 ++ features ++
  tpl10 ++ api_endpoints ++ tpl11

/-- `create_module_page(folder_name, module_info, doc_path)` minus its file
read: the source reads `<doc_path>/README.md` into `content` (empty string
when the file is absent — see `readContent` below) and then renders; the
`folder_name` parameter is unused in the source body.  This is the pure
remainder, taking `content` directly. -/
def create_module_page (module_info : ModuleInfo) (content : String) : String :=
  renderPage module_info (extract_overview content) (extract_features content)
    (extract_api_endpoints content)

/-! ## The driver `main` (source lines 294-331) -/

def docs_dir : String := "/home/umesh/documentation"

def output_dir : String := "/home/umesh/metanode/docs/modules"

/-- `os.path.join(docs_dir, folder_name)`. -/
def doc_path (folder : String) : String := docs_dir ++ "/" ++ folder

/-- `os.path.join(doc_path, "README.md")`. -/
def readme_path (folder : String) : String := doc_path folder ++ "/README.md"

/-- `os.path.join(output_dir, folder_name.replace('-', '-'), "index.html")`;
`replace('-', '-')` is the identity. -/
def module_output_file (folder : String) : String :=
  output_dir ++ "/" ++ folder ++ "/index.html"

/-- The filesystem, as the driver observes it: which paths exist as
directories, and the text content of readable files (`none` = absent). -/
structure FS where
  dirExists : String → Bool
  readFile : String → Option String

/-- Lines 109-113: read `README.md` if it exists, else `content = ""`. -/
def readContent (fs : FS) (folder : String) : String :=
  (fs.readFile (readme_path folder)).getD ""

/-- One driver run's observable effects: files written (path, content) in
order, warning lines printed, and the `generated_count` counter. -/
structure MainResult where
  writes : List (String × String)
  warnings : List String
  count : Nat
deriving DecidableEq

/-- One iteration of the `for folder_name, module_info in
MODULE_MAPPING.items()` loop: if the source folder exists, write the page to
`<output_dir>/<folder>/index.html` and increment the counter, else print the
warning line and move on. -/
def mainStep (fs : FS) (st : MainResult) (e : String × ModuleInfo) : MainResult :=
  if fs.dirExists (doc_path e.1) then
    ⟨st.writes ++ [(module_output_file e.1, create_module_page e.2 (readContent fs e.1))],
     st.warnings, st.count + 1⟩
  else
    ⟨st.writes, st.warnings ++ ["⚠️  Missing: " ++ e.1], st.count⟩

/-- The driver loop over an arbitrary table (used to state reordering
properties); `main` runs it on `MODULE_MAPPING`. -/
def runMainT (fs : FS) (table : List (String × ModuleInfo)) : MainResult :=
  table.foldl (mainStep fs) ⟨[], [], 0⟩

/-- `main()`: the whole loop on the static table. -/
def runMain (fs : FS) : MainResult := runMainT fs MODULE_MAPPING

/-- The final summary line, `f"🎉 Generated {generated_count} module pages
successfully!"`. -/
def summary_line (n : Nat) : String :=
  "🎉 Generated " ++ toString n ++ " module pages successfully!"

/-- Substring as a proposition: `pat` occurs contiguously in `s`. -/
def strContains (s pat : String) : Prop := ∃ l r, s = l ++ (pat ++ r)

/-- The write a single loop iteration performs, if any. -/
def writeOf (fs : FS) (e : String × ModuleInfo) : Option (String × String) :=
  if fs.dirExists (doc_path e.1) then
    some (module_output_file e.1, create_module_page e.2 (readContent fs e.1))
  else none

/-- The warning line a single loop iteration prints, if any. -/
def warnOf (fs : FS) (e : String × ModuleInfo) : Option String :=
  if fs.dirExists (doc_path e.1) then none else some ("⚠️  Missing: " ++ e.1)

/-- A filesystem with no module folders and no readable files. -/
def fsNone : FS := ⟨fun _ => false, fun _ => none⟩

/-- A filesystem where every folder exists and no `README.md` is readable
(the driver then renders every page from empty content). -/
def fsAll : FS := ⟨fun _ => true, fun _ => none⟩

/-! ## Lemmas about the embedding -/

theorem strAppend_assoc (a b c : String) : a ++ b ++ c = a ++ (b ++ c) := by
  cases a with
  | mk x =>
    cases b with
    | mk y =>
      cases c with
      | mk z => exact congrArg String.mk (List.append_assoc x y z)

theorem foldl_mainStep (fs : FS) (t : List (String × ModuleInfo)) (st : MainResult) :
    t.foldl (mainStep fs) st =
      ⟨st.writes ++ t.filterMap (writeOf fs),
       st.warnings ++ t.filterMap (warnOf fs),
       st.count + (t.filterMap (writeOf fs)).length⟩ := by
  induction t generalizing st with
  | nil => simp
  | cons e t ih =>
    cases h : fs.dirExists (doc_path e.1) with
    | true =>
      simp [List.foldl_cons, ih, mainStep, h, writeOf, warnOf, List.filterMap_cons]
      omega
    | false =>
      simp [List.foldl_cons, ih, mainStep, h, writeOf, warnOf, List.filterMap_cons]

theorem runMainT_eq (fs : FS) (t : List (String × ModuleInfo)) :
    runMainT fs t =
      ⟨t.filterMap (writeOf fs), t.filterMap (warnOf fs),
       (t.filterMap (writeOf fs)).length⟩ := by
  simpa [runMainT] using foldl_mainStep fs t ⟨[], [], 0⟩

theorem writes_paths (fs : FS) (t : List (String × ModuleInfo)) :
    (t.filterMap (writeOf fs)).map Prod.fst =
      (t.filter (fun e => fs.dirExists (doc_path e.1))).map
        (fun e => module_output_file e.1) := by
  induction t with
  | nil => rfl
  | cons e t ih => cases h : fs.dirExists (doc_path e.1) <;> simp [writeOf, h, ih]

theorem warn_lines (fs : FS) (t : List (String × ModuleInfo)) :
    t.filterMap (warnOf fs) =
      (t.filter (fun e => !fs.dirExists (doc_path e.1))).map
        (fun e => "⚠️  Missing: " ++ e.1) := by
  induction t with
  | nil => rfl
  | cons e t ih => cases h : fs.dirExists (doc_path e.1) <;> simp [warnOf, h, ih]

/-- The 15 output paths of the table are pairwise distinct. -/
theorem module_paths_nodup :
    (MODULE_MAPPING.map (fun e => module_output_file e.1)).Nodup := by decide

theorem foldl_mainStep_congr (fs₁ fs₂ : FS) :
    ∀ (t : List (String × ModuleInfo)),
      (∀ e ∈ t, fs₁.dirExists (doc_path e.1) = fs₂.dirExists (doc_path e.1)
        ∧ fs₁.readFile (readme_path e.1) = fs₂.readFile (readme_path e.1)) →
      ∀ st : MainResult, t.foldl (mainStep fs₁) st = t.foldl (mainStep fs₂) st
  | [], _, _ => rfl
  | e :: t, h, st => by
    have he := h e (List.mem_cons_self e t)
    have hstep : mainStep fs₁ st e = mainStep fs₂ st e := by
      simp only [mainStep, readContent, he.1, he.2]
    rw [List.foldl_cons, List.foldl_cons, hstep]
    exact foldl_mainStep_congr fs₁ fs₂ t
      (fun x hx => h x (List.mem_cons_of_mem _ hx)) _

/-! ## Claims -/

/-- C2: one driver run writes exactly one output file at
`<output_root>/<module_id>/index.html` for every table module whose source
folder exists; for every absent folder it writes nothing, emits the one-line
warning, and skips the module (the model is total, so no failure is
raised); and the final summary count equals the number of modules actually
generated. -/
theorem driver_outputs_and_summary (fs : FS) :
    (runMain fs).writes.map Prod.fst =
        (MODULE_MAPPING.filter (fun e => fs.dirExists (doc_path e.1))).map
          (fun e => module_output_file e.1)
    ∧ (runMain fs).warnings =
        (MODULE_MAPPING.filter (fun e => !fs.dirExists (doc_path e.1))).map
          (fun e => "⚠️  Missing: " ++ e.1)
    ∧ (runMain fs).count = (runMain fs).writes.length
    ∧ ((runMain fs).writes.map Prod.fst).Nodup
    ∧ ∀ folder info, (folder, info) ∈ MODULE_MAPPING →
        (fs.dirExists (doc_path folder) = true →
          List.count (module_output_file folder) ((runMain fs).writes.map Prod.fst) = 1)
        ∧ (fs.dirExists (doc_path folder) = false →
          module_output_file folder ∉ (runMain fs).writes.map Prod.fst) := by
  have hw : (runMain fs).writes = MODULE_MAPPING.filterMap (writeOf fs) := by
    rw [runMain, runMainT_eq]
  have hpaths : (runMain fs).writes.map Prod.fst =
      (MODULE_MAPPING.filter (fun e => fs.dirExists (doc_path e.1))).map
        (fun e => module_output_file e.1) := by
    rw [hw, writes_paths]
  have hnodup : ((runMain fs).writes.map Prod.fst).Nodup := by
    rw [hpaths]
    exact List.Nodup.sublist
      (List.Sublist.map _ (List.filter_sublist MODULE_MAPPING)) module_paths_nodup
  refine ⟨hpaths, ?_, ?_, hnodup, ?_⟩
  · rw [runMain, runMainT_eq]
    exact warn_lines fs MODULE_MAPPING
  · rw [runMain, runMainT_eq]
  · intro folder info hmem
    constructor
    · intro hdir
      have hmemf : (folder, info) ∈
          MODULE_MAPPING.filter (fun e => fs.dirExists (doc_path e.1)) :=
        List.mem_filter.mpr ⟨hmem, hdir⟩
      have hin : module_output_file folder ∈ (runMain fs).writes.map Prod.fst := by
        rw [hpaths]
        exact List.mem_map_of_mem _ hmemf
      exact List.count_eq_one_of_mem hnodup hin
    · intro hdir hmem2
      rw [hpaths] at hmem2
      rcases List.mem_map.mp hmem2 with ⟨e, hef, heq⟩
      have hemem : e ∈ MODULE_MAPPING := List.mem_of_mem_filter hef
      have hedir : fs.dirExists (doc_path e.1) = true := (List.mem_filter.mp hef).2
      have hee : e = (folder, info) :=
        List.inj_on_of_nodup_map module_paths_nodup hemem hmem heq
      rw [hee] at hedir
      rw [hdir] at hedir
      exact Bool.noConfusion hedir

/-- Witness for C2 at two concrete filesystems: with every folder absent the
first module's output path is not written; with every folder present it is
written exactly once. -/
theorem driver_outputs_and_summary_witness :
    module_output_file "01-firstuse" ∉ ((runMain fsNone).writes.map Prod.fst)
    ∧ List.count (module_output_file "01-firstuse")
        ((runMain fsAll).writes.map Prod.fst) = 1 :=
  ⟨((driver_outputs_and_summary fsNone).2.2.2.2 "01-firstuse"
      ⟨"First Use Guide",
       "Complete getting started guide for PARVYOM Metanode deployment and initial setup",
       "fas fa-play-circle", "getting-started"⟩ (by decide)).2 rfl,
   ((driver_outputs_and_summary fsAll).2.2.2.2 "01-firstuse"
      ⟨"First Use Guide",
       "Complete getting started guide for PARVYOM Metanode deployment and initial setup",
       "fas fa-play-circle", "getting-started"⟩ (by decide)).1 rfl⟩

/-- C9: the driver is a pure batch loop with no state between iterations:
running it on any permutation of the module table produces the same multiset
of (path, content) output files, the same multiset of warnings, and the same
summary count, for every fixed filesystem state. -/
theorem table_reorder_invariance (fs : FS) (t₁ t₂ : List (String × ModuleInfo))
    (h : t₁.Perm t₂) :
    (runMainT fs t₁).writes.Perm ((runMainT fs t₂).writes)
    ∧ (runMainT fs t₁).warnings.Perm ((runMainT fs t₂).warnings)
    ∧ (runMainT fs t₁).count = (runMainT fs t₂).count := by
  rw [runMainT_eq fs t₁, runMainT_eq fs t₂]
  exact ⟨h.filterMap _, h.filterMap _, (h.filterMap (writeOf fs)).length_eq⟩

/-- Witness for C9: swapping two concrete table entries permutes the
outputs. -/
theorem table_reorder_invariance_witness :
    (runMainT fsAll [("a", ⟨"t", "d", "i", "c"⟩), ("b", ⟨"u", "e", "j", "f"⟩)]).writes.Perm
      ((runMainT fsAll [("b", ⟨"u", "e", "j", "f"⟩), ("a", ⟨"t", "d", "i", "c"⟩)]).writes) :=
  (table_reorder_invariance fsAll
    [("a", ⟨"t", "d", "i", "c"⟩), ("b", ⟨"u", "e", "j", "f"⟩)]
    [("b", ⟨"u", "e", "j", "f"⟩), ("a", ⟨"t", "d", "i", "c"⟩)] (by decide)).1

/-- C7: the generator is deterministic.  All embedded functions are pure
Lean functions, so re-running any of them on the same input yields the
identical string; moreover the driver's result depends only on the
filesystem values it actually reads (folder existence and `README.md`
content per table entry), so two runs over unchanged inputs produce
byte-identical output files. -/
theorem generator_deterministic (fs₁ fs₂ : FS)
    (h : ∀ folder info, (folder, info) ∈ MODULE_MAPPING →
        fs₁.dirExists (doc_path folder) = fs₂.dirExists (doc_path folder)
        ∧ fs₁.readFile (readme_path folder) = fs₂.readFile (readme_path folder)) :
    runMain fs₁ = runMain fs₂
    ∧ (∀ content : String, extract_overview content = extract_overview content)
    ∧ (∀ (info : ModuleInfo) (content : String),
        create_module_page info content = create_module_page info content) := by
  refine ⟨?_, fun _ => rfl, fun _ _ => rfl⟩
  rw [runMain, runMain, runMainT, runMainT]
  exact foldl_mainStep_congr fs₁ fs₂ MODULE_MAPPING
    (fun e he => h e.1 e.2 (by rwa [Prod.mk.eta])) _

/-- Witness for C7: two runs over the same (empty) filesystem agree. -/
theorem generator_deterministic_witness :
    runMain fsNone = runMain fsNone
    ∧ (∀ content : String, extract_overview content = extract_overview content)
    ∧ (∀ (info : ModuleInfo) (content : String),
        create_module_page info content = create_module_page info content) :=
  generator_deterministic fsNone fsNone (fun _ _ _ => ⟨rfl, rfl⟩)

/-- C3: when the document does not contain `"## Overview"`,
`extract_overview` returns the fixed fallback sentence verbatim, and that
sentence occurs verbatim in the generated page (inside the overview
section's interpolation hole). -/
theorem overview_fallback_propagates (info : ModuleInfo) (content : String)
    (h : pyContains content "## Overview" = false) :
    extract_overview content =
      "<p>Comprehensive system documentation available in the repository.</p>"
    ∧ strContains (create_module_page info content)
      "<p>Comprehensive system documentation available in the repository.</p>" := by
  have h1 : extract_overview content =
      "<p>Comprehensive system documentation available in the repository.</p>" := by
    simp [extract_overview, h]
  refine ⟨h1, ?_⟩
  rw [create_module_page, renderPage, h1]
  exact ⟨tpl1 ++ info.title ++ tpl2 ++ info.description ++ tpl3 ++ info.title ++
      tpl4 ++ info.category ++ tpl5 ++ info.icon ++ tpl6 ++ info.title ++
      tpl7 ++ info.description ++ tpl8,
    tpl9 ++ extract_features content ++ tpl10 ++ extract_api_endpoints content ++ tpl11,
    by simp [strAppend_assoc]⟩

/-- Witness for C3 at a document with no `"## Overview"` marker. -/
theorem overview_fallback_propagates_witness :
    extract_overview "hello world" =
      "<p>Comprehensive system documentation available in the repository.</p>"
    ∧ strContains (create_module_page ⟨"t", "d", "i", "c"⟩ "hello world")
      "<p>Comprehensive system documentation available in the repository.</p>" :=
  overview_fallback_propagates ⟨"t", "d", "i", "c"⟩ "hello world" (by decide)

/-- C1 (counterexample): on the spec's end-to-end document the extracted
overview HTML is NOT `"<h2>Overview</h2>\n<p>This system does X.</p>"` —
the code deletes the entire `"## Overview"` marker text with
`.replace("## Overview", "")`, so no heading survives. -/
theorem overview_scenario_counterexample :
    extract_overview "## Overview\nThis system does X.\n\n## Other" ≠
      "<h2>Overview</h2>\n<p>This system does X.</p>" := by decide

/-- C1 (amended): for the document
`"## Overview\nThis system does X.\n\n## Other"` the extracted overview HTML
equals exactly `"<p>This system does X.</p>"`: the marker text is deleted
(not converted to a heading), the section content is preserved, and
extraction stops before the next `"##"`. -/
theorem overview_scenario_actual :
    extract_overview "## Overview\nThis system does X.\n\n## Other" =
      "<p>This system does X.</p>" := by decide

/-- C4: `extract_api_endpoints` returns the "complete API documentation"
sentence (in its fixed div) iff the uppercased text contains `"API"` or
`"ENDPOINT"`; otherwise it returns the fixed fallback sentence. -/
theorem api_marker_detection (content : String) :
    (extract_api_endpoints content =
        "<div class=\x27api-endpoints\x27><p>Complete API documentation with endpoints, parameters, and examples.</p></div>"
      ↔ (pyContains (pyUpper content) "API" = true
          ∨ pyContains (pyUpper content) "ENDPOINT" = true))
    ∧ ((pyContains (pyUpper content) "API" = false
        ∧ pyContains (pyUpper content) "ENDPOINT" = false) →
      extract_api_endpoints content =
        "<div class=\x27api-endpoints\x27><p>API documentation available in the comprehensive module documentation.</p></div>") := by
  cases h1 : pyContains (pyUpper content) "API" <;>
    cases h2 : pyContains (pyUpper content) "ENDPOINT" <;>
      simp [extract_api_endpoints, h1, h2]

/-- Witness for C4: a document whose lowercase `"endpoint"` is detected, and
one with neither marker. -/
theorem api_marker_detection_witness :
    extract_api_endpoints "the endpoint list" =
      "<div class=\x27api-endpoints\x27><p>Complete API documentation with endpoints, parameters, and examples.</p></div>"
    ∧ extract_api_endpoints "nothing here" =
      "<div class=\x27api-endpoints\x27><p>API documentation available in the comprehensive module documentation.</p></div>" :=
  ⟨(api_marker_detection "the endpoint list").1.mpr (Or.inr (by decide)),
   (api_marker_detection "nothing here").2 ⟨by decide, by decide⟩⟩

/-- C5 (counterexample): of the six markdown header levels only TWO are
rewritten into heading tags (`## ` and `### `), not three: a first-, fourth-,
fifth- or sixth-level header line passes through the header pass unchanged,
and `"# A"` ends up paragraph-wrapped as literal text. -/
theorem header_levels_counterexample :
    headerLine "# A" = "# A"
    ∧ headerLine "## A" = "<h2>A</h2>"
    ∧ headerLine "### A" = "<h3>A</h3>"
    ∧ headerLine "#### A" = "#### A"
    ∧ headerLine "##### A" = "##### A"
    ∧ headerLine "###### A" = "###### A"
    ∧ markdown_to_html "# A" = "<p># A</p>"
    ∧ markdown_to_html "- item [link](url) *emphasis*" =
        "<p>- item [link](url) *emphasis*</p>" := by decide

/-- C5 (amended): exactly two header patterns are rewritten — a line
starting `"### "` becomes an `<h3>` of the rest of the line, else a line
starting `"## "` becomes an `<h2>` of the rest; every other line passes the
header pass through byte-identical (no list/link/emphasis/code handling, no
escaping), and `markdown_to_html` is that per-line pass followed by the
blank-line paragraph split. -/
theorem header_rewrite_characterization (line text : String) :
    (startsW line "### " = true →
      headerLine line = "<h3>" ++ pyDrop line 4 ++ "</h3>")
    ∧ (startsW line "### " = false → startsW line "## " = true →
      headerLine line = "<h2>" ++ pyDrop line 3 ++ "</h2>")
    ∧ (startsW line "### " = false → startsW line "## " = false →
      headerLine line = line)
    ∧ convert_headers text = pyJoin "\n" ((pySplit text "\n").map headerLine)
    ∧ markdown_to_html text =
        pyJoin "\n" ((pySplit (convert_headers text) "\n\n").map wrapParagraph) := by
  refine ⟨?_, ?_, ?_, rfl, rfl⟩
  · intro h
    simp [headerLine, h]
  · intro h1 h2
    simp [headerLine, h1, h2]
  · intro h1 h2
    simp [headerLine, h1, h2]

/-- Witness for C5's amended characterization at concrete lines. -/
theorem header_rewrite_characterization_witness :
    headerLine "### T" = "<h3>" ++ pyDrop "### T" 4 ++ "</h3>"
    ∧ headerLine "## T" = "<h2>" ++ pyDrop "## T" 3 ++ "</h2>"
    ∧ headerLine "- item" = "- item" :=
  ⟨(header_rewrite_characterization "### T" "").1 (by decide),
   (header_rewrite_characterization "## T" "").2.1 (by decide) (by decide),
   (header_rewrite_characterization "- item" "").2.2.1 (by decide) (by decide)⟩

/-- C6 (counterexample): the paragraph `" "` is a non-empty string, does not
start with a markup tag, and yet is NOT wrapped in a paragraph tag — the
code tests `p.strip()` (truthiness after stripping), so a whitespace-only
paragraph is left unchanged and the claim as stated fails on it. -/
theorem paragraph_wrap_counterexample :
    (" " ≠ "" ∧ startsW " " "<" = false)
    ∧ wrapParagraph " " = " "
    ∧ markdown_to_html " " = " "
    ∧ pyContains (markdown_to_html " ") "<p>" = false := by decide

/-- C6 (amended): after the blank-line split, every paragraph containing a
non-whitespace character that does not start with `'<'` is replaced by its
whitespace-stripped text wrapped in `<p>...</p>`; every paragraph starting
with `'<'`, and every empty or whitespace-only paragraph, is left unchanged;
`markdown_to_html` applies exactly this to each paragraph. -/
theorem paragraph_wrap_characterization (p text : String) :
    (pyStrip p ≠ "" → startsW p "<" = false →
      wrapParagraph p = "<p>" ++ pyStrip p ++ "</p>")
    ∧ (startsW p "<" = true → wrapParagraph p = p)
    ∧ (pyStrip p = "" → wrapParagraph p = p)
    ∧ markdown_to_html text =
        pyJoin "\n" ((pySplit (convert_headers text) "\n\n").map wrapParagraph) := by
  refine ⟨?_, ?_, ?_, rfl⟩
  · intro h1 h2
    rw [wrapParagraph, if_pos ⟨h1, h2⟩]
  · intro h
    rw [wrapParagraph, if_neg]
    intro hc
    rw [h] at hc
    exact Bool.noConfusion hc.2
  · intro h
    rw [wrapParagraph, if_neg]
    intro hc
    exact hc.1 h

/-- Witness for C6's amended characterization at concrete paragraphs. -/
theorem paragraph_wrap_characterization_witness :
    wrapParagraph "  hi  " = "<p>" ++ pyStrip "  hi  " ++ "</p>"
    ∧ wrapParagraph "<div>x</div>" = "<div>x</div>"
    ∧ wrapParagraph "" = "" :=
  ⟨(paragraph_wrap_characterization "  hi  " "").1 (by decide) (by decide),
   (paragraph_wrap_characterization "<div>x</div>" "").2.1 (by decide),
   (paragraph_wrap_characterization "" "").2.2.1 (by decide)⟩

/-- C8: the three extractors are total Lean functions of the document text
(no exception paths exist in the embedding — every Python operation used is
total on strings); missing markers and empty input degrade to the fixed
fallback texts: features and API always return one of their two fixed
sentences, and a missing `"## Overview"` marker (in particular the empty
document) yields the overview fallback sentence. -/
theorem extractors_total_fallbacks (content : String) :
    (extract_features content =
        "<div class=\x27features-list\x27><p>Advanced features and capabilities documented in detail.</p></div>"
      ∨ extract_features content =
        "<div class=\x27features-list\x27><p>Production-ready features with enterprise-grade capabilities.</p></div>")
    ∧ (extract_api_endpoints content =
        "<div class=\x27api-endpoints\x27><p>Complete API documentation with endpoints, parameters, and examples.</p></div>"
      ∨ extract_api_endpoints content =
        "<div class=\x27api-endpoints\x27><p>API documentation available in the comprehensive module documentation.</p></div>")
    ∧ (pyContains content "## Overview" = false →
      extract_overview content =
        "<p>Comprehensive system documentation available in the repository.</p>")
    ∧ extract_overview "" =
        "<p>Comprehensive system documentation available in the repository.</p>" := by
  refine ⟨?_, ?_, ?_, by decide⟩
  · cases h : (pyContains content "## Key Features" || pyContains content "### Features") with
    | true => exact Or.inl (by simp [extract_features, h])
    | false => exact Or.inr (by simp [extract_features, h])
  · cases h : (pyContains (pyUpper content) "API" || pyContains (pyUpper content) "ENDPOINT") with
    | true => exact Or.inl (by simp [extract_api_endpoints, h])
    | false => exact Or.inr (by simp [extract_api_endpoints, h])
  · intro h
    simp [extract_overview, h]

/-- Witness for C8 at the empty document. -/
theorem extractors_total_fallbacks_witness :
    extract_overview "" =
      "<p>Comprehensive system documentation available in the repository.</p>"
    ∧ (extract_features "" =
        "<div class=\x27features-list\x27><p>Advanced features and capabilities documented in detail.</p></div>"
      ∨ extract_features "" =
        "<div class=\x27features-list\x27><p>Production-ready features with enterprise-grade capabilities.</p></div>") :=
  ⟨(extractors_total_fallbacks "").2.2.1 (by decide), (extractors_total_fallbacks "").1⟩

/-- C10: if the document contains the `"## Overview"` marker but the section
up to the next `"##"` (or end of text) strips to nothing, `extract_overview`
returns the empty string — not the fallback sentence — and the generated
page's overview hole is filled with the empty string. -/
theorem whitespace_overview_empty (info : ModuleInfo) (content : String)
    (h1 : pyContains content "## Overview" = true)
    (h2 : overviewSection content = "") :
    extract_overview content = ""
    ∧ create_module_page info content =
        renderPage info "" (extract_features content) (extract_api_endpoints content) := by
  have he : extract_overview content = "" := by
    rw [extract_overview, if_pos (by simp [h1] : pyContains content "## Overview" = true), h2]
    decide
  exact ⟨he, by rw [create_module_page, he]⟩

/-- Witness for C10 at a document whose overview section is whitespace. -/
theorem whitespace_overview_empty_witness :
    extract_overview "## Overview\n   \n## X" = ""
    ∧ create_module_page ⟨"t", "d", "i", "c"⟩ "## Overview\n   \n## X" =
        renderPage ⟨"t", "d", "i", "c"⟩ ""
          (extract_features "## Overview\n   \n## X")
          (extract_api_endpoints "## Overview\n   \n## X") :=
  whitespace_overview_empty ⟨"t", "d", "i", "c"⟩ "## Overview\n   \n## X"
    (by decide) (by decide)
